import Mathlib

/-!
Verification of the booster-entry document-intake UI and its vehicle-hire
session schema.  The shallow embedding below translates:

* the dashboard KPI fallback chain (`Dashboard.jsx`, `duplicateValue`);
* the idle-timeout route guard (`ProtectedRoute` in `App.jsx`);
* the vehicle-hire eligibility filter (`fetchVehicleHireData` in
  `VehicleHire.jsx`);
* the SQL migrations `create_telegram_sessions_table.sql` and
  `create_vehicle_hire_table.sql` (column lists, types, NOT NULL flags,
  defaults, CHECK constraints);
* the backend session orchestrator (`ComputeOverallStatus`, `StartSession`,
  `HandleInboundReply`, `ExpireIdleSessions`), which lives in the project's
  Python services (`app.py`, `telegram_user_client.py`) that are not part of
  the checked-out sources: those definitions are modelled from the
  specification's words and are marked as such in their doc comments.
-/

namespace BoosterEntry

/-! ## Document sub-statuses and the status aggregator -/

/-- The enumerated set of a document's sub-statuses
({NotStarted, InProgress, Completed, Failed, Duplicate}), also used for the
derived overall status. -/
inductive SubStatus
  | notStarted
  | inProgress
  | completed
  | failed
  | duplicate
deriving DecidableEq, Repr

/-- Modelled from the spec: the Status Aggregator `ComputeOverallStatus`
is implemented in the backend service (`app.py`), which is not among the
checked-out sources; the rule is taken from the specification's precedence
description (Duplicate over Failed over all-Completed over InProgress). -/
def ComputeOverallStatus (extraction ledger hire : SubStatus) : SubStatus :=
  let subs := [extraction, ledger, hire]
  if subs.contains SubStatus.duplicate then SubStatus.duplicate
  else if subs.contains SubStatus.failed then SubStatus.failed
  else if subs.all (fun s => s == SubStatus.completed) then SubStatus.completed
  else SubStatus.inProgress

/-! ## Dashboard: the Duplicate KPI fallback chain (`Dashboard.jsx`) -/

/-- A JavaScript field value as the dashboard sees it: `null` collapses
JavaScript `null` and `undefined` (an absent key reads as `undefined`);
`num n` is a value whose `Number` coercion is a finite number with value `n`;
`nonNumeric` is a value whose `Number` coercion is `NaN` or infinite. -/
inductive JSVal
  | null
  | num (n : Int)
  | nonNumeric
deriving DecidableEq, Repr

/-- JavaScript nullish coalescing `a ?? b`: `b` exactly when `a` is
`null`/`undefined`. -/
def coalesce (a b : JSVal) : JSVal :=
  match a with
  | JSVal.null => b
  | v => v

/-- `getNumeric` from `Dashboard.jsx`: `0` for `null`/`undefined`, the number
itself when `Number(v)` is finite, `0` otherwise. -/
def getNumeric : JSVal → Int
  | JSVal.null => 0
  | JSVal.num n => n
  | JSVal.nonNumeric => 0

/-- The keys of the dashboard summary object that the Duplicate KPI card
reads: `duplicate`, `failed`, `duplicates`, `duplicate_count` and the
capitalised key written `summary["Duplicate"]` in the source. -/
structure DashboardSummary where
  duplicate : JSVal
  failed : JSVal
  duplicates : JSVal
  duplicate_count : JSVal
  duplicateCap : JSVal
deriving DecidableEq, Repr

/-- `duplicateValue` from `Dashboard.jsx`:
`getNumeric(summary.duplicate ?? summary.failed ?? summary.duplicates ??
summary.duplicate_count ?? summary["Duplicate"] ?? 0)`. -/
def duplicateValue (s : DashboardSummary) : Int :=
  getNumeric (coalesce s.duplicate (coalesce s.failed (coalesce s.duplicates
    (coalesce s.duplicate_count (coalesce s.duplicateCap (JSVal.num 0))))))

/-! ## Route guard (`ProtectedRoute` in `App.jsx`) -/

/-- What the idle-timeout `ProtectedRoute` renders: the protected children,
or a redirect to `/login`. -/
inductive RouteRender
  | children
  | redirectLogin
deriving DecidableEq, Repr

/-- ASCII lowercasing of one character, as JavaScript `toLowerCase` acts on
the ASCII range (the route paths of `App.jsx` are all ASCII). -/
def lowerChar (c : Char) : Char :=
  if 'A' ≤ c ∧ c ≤ 'Z' then Char.ofNat (c.toNat + 32) else c

/-- JavaScript `s.toLowerCase()` on ASCII strings. -/
def jsToLowerCase (s : String) : String :=
  String.mk (s.data.map lowerChar)

/-- Whether the first list is a prefix of the second. -/
def isPrefixList : List Char → List Char → Bool
  | [], _ => true
  | _ :: _, [] => false
  | a :: as, b :: bs => a == b && isPrefixList as bs

/-- JavaScript `s.startsWith(pre)`. -/
def jsStartsWith (s pre : String) : Bool :=
  isPrefixList pre.data s.data

/-- The render decision of the idle-timeout `ProtectedRoute` in `App.jsx`:
when `localStorage.isLoggedIn` is not the string "true", the lowercased
pathname is allowed through exactly when it is "/upload" or starts with
"/upload/"; every other path redirects to `/login`.  `pathname = none`
models an absent `location.pathname` (the source reads
`(location?.pathname || "")`). -/
def ProtectedRoute (isLoggedIn : Option String) (pathname : Option String) : RouteRender :=
  if isLoggedIn = some "true" then RouteRender.children
  else
    let path := jsToLowerCase (pathname.getD "")
    if path == "/upload" || jsStartsWith path "/upload/" then RouteRender.children
    else RouteRender.redirectLogin

/-! ## Vehicle-hire eligibility filter (`fetchVehicleHireData` in `VehicleHire.jsx`) -/

/-- One row of the monitoring feed as `VehicleHire.jsx` reads it: the three
per-document status strings. -/
structure MonitoringDoc where
  data_extraction_status : String
  erp_entry_status : String
  vehicle_hire_status : String
deriving DecidableEq, Repr

/-- The filter in `fetchVehicleHireData`: a document is offered for vehicle
hire (including the Send-Message session start) exactly when data extraction
and ERP entry are "Completed" and the vehicle-hire status is "Not Started". -/
def vehicleHireFilter (doc : MonitoringDoc) : Bool :=
  doc.data_extraction_status == "Completed" &&
  doc.erp_entry_status == "Completed" &&
  doc.vehicle_hire_status == "Not Started"

/-- The list shown on the Vehicle Hire page: `allDocs.filter(...)`. -/
def fetchVehicleHireDocs (docs : List MonitoringDoc) : List MonitoringDoc :=
  docs.filter vehicleHireFilter

/-! ## SQL schema embedding (`migrations/*.sql`) -/

/-- The SQL column types used by the two migrations. `decimal p s` is
`DECIMAL(p, s)`: precision `p` digits, scale `s`. -/
inductive SqlType
  | serial
  | integer
  | varchar (n : Nat)
  | decimal (p s : Nat)
  | timestamp
  | date
deriving DecidableEq, Repr

/-- A non-null SQL value, abstracted to what the claims need: a `DECIMAL`
value is carried as the integer `scaled` = value times `10 ^ scale`. -/
inductive SqlValue
  | int (n : Int)
  | str (s : String)
  | dec (scaled : Int)
  | timestampVal
  | dateVal
deriving DecidableEq, Repr

/-- Whether a non-null value fits a column type: a `VARCHAR(n)` holds any
string of at most `n` characters; a `DECIMAL(p, s)` holds any scaled integer
of at most `p` digits, of either sign (SQL `DECIMAL` has no sign
constraint). -/
def SqlType.acceptsVal : SqlType → SqlValue → Bool
  | SqlType.serial, SqlValue.int _ => true
  | SqlType.integer, SqlValue.int _ => true
  | SqlType.varchar n, SqlValue.str s => decide (s.length ≤ n)
  | SqlType.decimal p _, SqlValue.dec m => decide (m.natAbs < 10 ^ p)
  | SqlType.timestamp, SqlValue.timestampVal => true
  | SqlType.date, SqlValue.dateVal => true
  | _, _ => false

/-- One column of a migration: its name, type, whether it is declared
`NOT NULL` (a `SERIAL PRIMARY KEY` is implicitly not null), and whether it
carries a `DEFAULT`. -/
structure SqlColumn where
  name : String
  ty : SqlType
  notNull : Bool
  hasDefault : Bool
deriving DecidableEq, Repr

/-- Whether a column accepts a value: `NULL` is accepted exactly when the
column is nullable, and a non-null value must fit the column type.  The
migrations declare no `CHECK` constraints, so this is the whole row-level
constraint the schema places on a single column. -/
def SqlColumn.accepts (c : SqlColumn) (v : Option SqlValue) : Bool :=
  match v with
  | none => !c.notNull
  | some w => c.ty.acceptsVal w

/-- A table of a migration: name, columns, and the `CHECK` constraint
expressions declared on it (none in either migration). -/
structure SqlTable where
  name : String
  columns : List SqlColumn
  checks : List String
deriving DecidableEq, Repr

/-- `telegram_pending_sessions` from `create_telegram_sessions_table.sql`:
id SERIAL PRIMARY KEY, doc_id INTEGER NOT NULL, phone_no VARCHAR(20) NOT
NULL, chat_id VARCHAR(50), manifest_no VARCHAR(50), advance_amount
DECIMAL(15, 2), qty DECIMAL(15, 3), status VARCHAR(20) DEFAULT 'pending',
created_at/updated_at TIMESTAMP DEFAULT CURRENT_TIMESTAMP.  No CHECK
constraint appears in the migration. -/
def telegramPendingSessions : SqlTable :=
  { name := "telegram_pending_sessions"
    columns :=
      [ { name := "id", ty := SqlType.serial, notNull := true, hasDefault := true }
      , { name := "doc_id", ty := SqlType.integer, notNull := true, hasDefault := false }
      , { name := "phone_no", ty := SqlType.varchar 20, notNull := true, hasDefault := false }
      , { name := "chat_id", ty := SqlType.varchar 50, notNull := false, hasDefault := false }
      , { name := "manifest_no", ty := SqlType.varchar 50, notNull := false, hasDefault := false }
      , { name := "advance_amount", ty := SqlType.decimal 15 2, notNull := false, hasDefault := false }
      , { name := "qty", ty := SqlType.decimal 15 3, notNull := false, hasDefault := false }
      , { name := "status", ty := SqlType.varchar 20, notNull := false, hasDefault := true }
      , { name := "created_at", ty := SqlType.timestamp, notNull := false, hasDefault := true }
      , { name := "updated_at", ty := SqlType.timestamp, notNull := false, hasDefault := true } ]
    checks := [] }

/-- The status words the migration documents in the SQL comment on the
`status` column: "-- pending, waiting_advance, waiting_qty, completed". -/
def telegramStatusComment : List String :=
  ["pending", "waiting_advance", "waiting_qty", "completed"]

/-- The specification's six-state session enumeration, as status words:
Pending, AwaitingAdvance, AwaitingQuantity, Completed, Expired, Cancelled. -/
def specSessionStateNames : List String :=
  ["Pending", "AwaitingAdvance", "AwaitingQuantity", "Completed", "Expired", "Cancelled"]

/-- `vehicle_hire` from `create_vehicle_hire_table.sql`: id SERIAL PRIMARY
KEY, doc_id INTEGER NOT NULL, manifest_no VARCHAR(100) NOT NULL,
advance_amount DECIMAL(10, 2) NOT NULL, payable_at VARCHAR(100) NOT NULL,
paid_by VARCHAR(50) NOT NULL, account VARCHAR(200) NOT NULL, paymode
VARCHAR(50) NOT NULL, filling_station VARCHAR(200) NOT NULL, slip_no
VARCHAR(50) NOT NULL, slip_date DATE NOT NULL, qty DECIMAL(10, 3) NOT NULL,
rate DECIMAL(10, 2) NOT NULL, amount DECIMAL(10, 2),
created_at/updated_at TIMESTAMP DEFAULT CURRENT_TIMESTAMP.  No CHECK
constraint appears in the migration. -/
def vehicleHire : SqlTable :=
  { name := "vehicle_hire"
    columns :=
      [ { name := "id", ty := SqlType.serial, notNull := true, hasDefault := true }
      , { name := "doc_id", ty := SqlType.integer, notNull := true, hasDefault := false }
      , { name := "manifest_no", ty := SqlType.varchar 100, notNull := true, hasDefault := false }
      , { name := "advance_amount", ty := SqlType.decimal 10 2, notNull := true, hasDefault := false }
      , { name := "payable_at", ty := SqlType.varchar 100, notNull := true, hasDefault := false }
      , { name := "paid_by", ty := SqlType.varchar 50, notNull := true, hasDefault := false }
      , { name := "account", ty := SqlType.varchar 200, notNull := true, hasDefault := false }
      , { name := "paymode", ty := SqlType.varchar 50, notNull := true, hasDefault := false }
      , { name := "filling_station", ty := SqlType.varchar 200, notNull := true, hasDefault := false }
      , { name := "slip_no", ty := SqlType.varchar 50, notNull := true, hasDefault := false }
      , { name := "slip_date", ty := SqlType.date, notNull := true, hasDefault := false }
      , { name := "qty", ty := SqlType.decimal 10 3, notNull := true, hasDefault := false }
      , { name := "rate", ty := SqlType.decimal 10 2, notNull := true, hasDefault := false }
      , { name := "amount", ty := SqlType.decimal 10 2, notNull := false, hasDefault := false }
      , { name := "created_at", ty := SqlType.timestamp, notNull := false, hasDefault := true }
      , { name := "updated_at", ty := SqlType.timestamp, notNull := false, hasDefault := true } ]
    checks := [] }

/-! ## Session orchestrator (modelled from the spec)

The orchestrator itself (`StartSession`, `HandleInboundReply`,
`ExpireIdleSessions`) is implemented by the project's Python services
(`app.py`, `telegram_user_client.py`), which are not among the checked-out
sources; every definition in this section is modelled from the
specification's words. -/

/-- Modelled from the spec: the session state machine's states — Pending,
AwaitingAdvance, AwaitingQuantity, Completed, plus the terminal failure
states Expired and Cancelled. -/
inductive SessionStatus
  | pending
  | awaitingAdvance
  | awaitingQuantity
  | completed
  | expired
  | cancelled
deriving DecidableEq, Repr

/-- A session is open while it has not reached a terminal state. -/
def SessionStatus.isOpen : SessionStatus → Bool
  | SessionStatus.pending => true
  | SessionStatus.awaitingAdvance => true
  | SessionStatus.awaitingQuantity => true
  | _ => false

/-- Modelled from the spec: one persisted session record of the durable
Session Store.  `processedIds` is the per-session provider-message-id dedup
set; it lives inside the persisted record, so it survives a process restart
together with the rest of the session. -/
structure Session where
  sessionId : Nat
  docId : Nat
  counterparty : String
  channelIdentity : Option String
  status : SessionStatus
  advance : Option Nat
  qty : Option Nat
  lastActivityAt : Nat
  processedIds : List String
deriving DecidableEq, Repr

/-- Modelled from the spec: one finalized Hire Ledger Entry, created exactly
once at session finalization. -/
structure LedgerEntry where
  docId : Nat
  advance : Nat
  qty : Nat
deriving DecidableEq, Repr

/-- Modelled from the spec: the durable state the orchestrator owns — the
session rows, the ledger rows, each document's `hire_status`, and the next
fresh session id. -/
structure OrchestratorState where
  sessions : List Session
  ledger : List LedgerEntry
  hireStatus : Nat → SubStatus
  nextId : Nat

/-- The open session for a document id, if any (the first matching row). -/
def openSessionFor (st : OrchestratorState) (d : Nat) : Option Session :=
  st.sessions.find? (fun s => s.docId == d && s.status.isOpen)

/-- A session row looked up by its session id. -/
def sessionById (st : OrchestratorState) (sid : Nat) : Option Session :=
  st.sessions.find? (fun s => s.sessionId == sid)

/-- Replace every session row carrying `u`'s session id by `u`. -/
def updateSession (st : OrchestratorState) (u : Session) : OrchestratorState :=
  { st with sessions :=
      st.sessions.map (fun t => if t.sessionId == u.sessionId then u else t) }

/-- Modelled from the spec: the fresh session a successful `StartSession`
creates.  The gateway is modelled as fire-and-forget, so the session starts
directly in `AwaitingAdvance` (the spec allows this: "transitions to
AwaitingAdvance ... immediately if the gateway is fire-and-forget"). -/
def newSession (sid d : Nat) (addr : String) (now : Nat) : Session :=
  { sessionId := sid
    docId := d
    counterparty := addr
    channelIdentity := none
    status := SessionStatus.awaitingAdvance
    advance := none
    qty := none
    lastActivityAt := now
    processedIds := [] }

/-- The outcome of `StartSession`. -/
inductive StartResult
  | started (sid : Nat)
  | existing (sid : Nat)
  | rejected
deriving DecidableEq, Repr

/-- Modelled from the spec: `StartSession(documentId, counterpartyAddress)`.
Preconditions: the document's `hire_status` is NotStarted and no open
session exists for the document.  When an open session already exists the
call is idempotent: it returns the existing open session id and creates no
row.  When `hire_status` is not NotStarted the call is rejected. -/
def StartSession (st : OrchestratorState) (d : Nat) (addr : String) (now : Nat) :
    OrchestratorState × StartResult :=
  match openSessionFor st d with
  | some s => (st, StartResult.existing s.sessionId)
  | none =>
    if st.hireStatus d = SubStatus.notStarted then
      ({ st with
          sessions := st.sessions ++ [newSession st.nextId d addr now]
          nextId := st.nextId + 1 },
        StartResult.started st.nextId)
    else (st, StartResult.rejected)

/-- The outcome of `HandleInboundReply`. -/
inductive ReplyOutcome
  | advanced
  | finalized
  | validationError
  | outOfState
  | unknownSession
  | duplicateEvent
deriving DecidableEq, Repr

/-- Modelled from the spec: parsing an inbound reply as a non-negative
number (the spec's fixed-point values are abstracted to naturals; a reply
that is not a plain non-negative numeral fails to parse). -/
def parseReply (raw : String) : Option Nat :=
  raw.trim.toNat?

/-- Modelled from the spec: resolving a channel identity to an open session —
first a session already bound to the channel, otherwise the first open
session not yet bound (the strict correlation binding happens on the first
inbound message after `StartSession`). -/
def resolveSession (st : OrchestratorState) (ch : String) : Option Session :=
  match st.sessions.find? (fun s => s.status.isOpen && s.channelIdentity == some ch) with
  | some s => some s
  | none => st.sessions.find? (fun s => s.status.isOpen && s.channelIdentity == none)

/-- Bind the channel identity, record the provider message id in the durable
per-session dedup set, and refresh `last-activity-at`. -/
def recordEvent (s : Session) (ch pmid : String) (now : Nat) : Session :=
  { s with
      channelIdentity := some ch
      processedIds := s.processedIds ++ [pmid]
      lastActivityAt := now }

/-- Modelled from the spec: the state advance applied to a resolved,
non-duplicate event.  A parse failure re-prompts and stays in the same
state; a valid number in AwaitingAdvance stores the advance and moves to
AwaitingQuantity; a valid number in AwaitingQuantity stores the quantity,
completes the session, appends the Hire Ledger Entry and sets the document's
`hire_status` to Completed; a reply in any other state is out of state. -/
def applyReply (st : OrchestratorState) (s : Session) (raw : String) :
    OrchestratorState × ReplyOutcome :=
  match parseReply raw with
  | none => (updateSession st s, ReplyOutcome.validationError)
  | some v =>
    match s.status with
    | SessionStatus.awaitingAdvance =>
        (updateSession st
          { s with advance := some v, status := SessionStatus.awaitingQuantity },
          ReplyOutcome.advanced)
    | SessionStatus.awaitingQuantity =>
        let st2 := updateSession st
          { s with qty := some v, status := SessionStatus.completed }
        ({ st2 with
            ledger := st2.ledger ++ [{ docId := s.docId, advance := s.advance.getD 0, qty := v }]
            hireStatus := fun d => if d = s.docId then SubStatus.completed else st2.hireStatus d },
          ReplyOutcome.finalized)
    | _ => (updateSession st s, ReplyOutcome.outOfState)

/-- Modelled from the spec: `HandleInboundReply(channelIdentity, rawText,
providerMessageId)`.  An event that resolves to no open session is dropped;
an event whose provider message id is already in the resolved session's
durable dedup set is a silent no-op (`DuplicateEventError`); otherwise the
event is recorded and the state machine advances. -/
def HandleInboundReply (st : OrchestratorState) (ch raw pmid : String) (now : Nat) :
    OrchestratorState × ReplyOutcome :=
  match resolveSession st ch with
  | none => (st, ReplyOutcome.unknownSession)
  | some s =>
    if s.processedIds.contains pmid then (st, ReplyOutcome.duplicateEvent)
    else applyReply st (recordEvent s ch pmid now) raw

/-- Modelled from the spec: what the reminder sweep does to one session —
an open session whose idle time `now - last-activity-at` exceeds the
threshold transitions to Expired; every other session is untouched. -/
def expireSession (threshold now : Nat) (s : Session) : Session :=
  if s.status.isOpen && decide (threshold < now - s.lastActivityAt) then
    { s with status := SessionStatus.expired }
  else s

/-- Modelled from the spec: `ExpireIdleSessions(idleThreshold)` — expires
every open session idle beyond the threshold and touches nothing else (in
particular no document's `hire_status`). -/
def ExpireIdleSessions (st : OrchestratorState) (threshold now : Nat) : OrchestratorState :=
  { st with sessions := st.sessions.map (expireSession threshold now) }

/-- A sample open session awaiting its first inbound message (channel
identity not yet bound), used to instantiate the orchestrator theorems at a
concrete input. -/
def sampleSession : Session :=
  { sessionId := 1
    docId := 42
    counterparty := "9990001111"
    channelIdentity := none
    status := SessionStatus.awaitingAdvance
    advance := none
    qty := none
    lastActivityAt := 0
    processedIds := [] }

/-- A sample orchestrator state holding just `sampleSession`. -/
def sampleState : OrchestratorState :=
  { sessions := [sampleSession]
    ledger := []
    hireStatus := fun _ => SubStatus.notStarted
    nextId := 2 }

/-- The empty orchestrator state. -/
def emptyState : OrchestratorState :=
  { sessions := []
    ledger := []
    hireStatus := fun _ => SubStatus.notStarted
    nextId := 1 }

/-! ## Theorems -/

/-- Claim C1: `ComputeOverallStatus` is a total function of the three
sub-statuses (it is a Lean function over the five-valued `SubStatus`), and
for every combination it satisfies the precedence rule: any Duplicate gives
Duplicate; otherwise any Failed gives Failed; otherwise all three Completed
gives Completed; otherwise InProgress. -/
theorem computeOverallStatus_precedence (e l h : SubStatus) :
    ((e = SubStatus.duplicate ∨ l = SubStatus.duplicate ∨ h = SubStatus.duplicate) →
      ComputeOverallStatus e l h = SubStatus.duplicate) ∧
    (¬(e = SubStatus.duplicate ∨ l = SubStatus.duplicate ∨ h = SubStatus.duplicate) →
      (e = SubStatus.failed ∨ l = SubStatus.failed ∨ h = SubStatus.failed) →
      ComputeOverallStatus e l h = SubStatus.failed) ∧
    (¬(e = SubStatus.duplicate ∨ l = SubStatus.duplicate ∨ h = SubStatus.duplicate) →
      ¬(e = SubStatus.failed ∨ l = SubStatus.failed ∨ h = SubStatus.failed) →
      (e = SubStatus.completed ∧ l = SubStatus.completed ∧ h = SubStatus.completed) →
      ComputeOverallStatus e l h = SubStatus.completed) ∧
    (¬(e = SubStatus.duplicate ∨ l = SubStatus.duplicate ∨ h = SubStatus.duplicate) →
      ¬(e = SubStatus.failed ∨ l = SubStatus.failed ∨ h = SubStatus.failed) →
      ¬(e = SubStatus.completed ∧ l = SubStatus.completed ∧ h = SubStatus.completed) →
      ComputeOverallStatus e l h = SubStatus.inProgress) := by
  refine ⟨?_, ?_, ?_, ?_⟩ <;> (cases e <;> cases l <;> cases h <;> decide)

/-- Claim C10: on the dashboard, the Duplicate KPI value is
`Number(summary.duplicate)` when that key holds a finite number; when it is
nullish the value falls back, in order, to `failed`, `duplicates`,
`duplicate_count`, `"Duplicate"`, and finally `0`; in particular a summary
that carries only a `failed` count displays that count on the Duplicate
card. -/
theorem duplicateValue_fallback :
    (∀ (n : Int) (f d2 d3 d4 : JSVal),
      duplicateValue ⟨JSVal.num n, f, d2, d3, d4⟩ = n) ∧
    (∀ (n : Int) (d2 d3 d4 : JSVal),
      duplicateValue ⟨JSVal.null, JSVal.num n, d2, d3, d4⟩ = n) ∧
    (∀ (n : Int) (d3 d4 : JSVal),
      duplicateValue ⟨JSVal.null, JSVal.null, JSVal.num n, d3, d4⟩ = n) ∧
    (∀ (n : Int) (d4 : JSVal),
      duplicateValue ⟨JSVal.null, JSVal.null, JSVal.null, JSVal.num n, d4⟩ = n) ∧
    (∀ n : Int,
      duplicateValue ⟨JSVal.null, JSVal.null, JSVal.null, JSVal.null, JSVal.num n⟩ = n) ∧
    duplicateValue ⟨JSVal.null, JSVal.null, JSVal.null, JSVal.null, JSVal.null⟩ = 0 ∧
    duplicateValue ⟨JSVal.null, JSVal.num 7, JSVal.null, JSVal.null, JSVal.null⟩ = 7 := by
  refine ⟨?_, ?_, ?_, ?_, ?_, rfl, rfl⟩ <;> intros <;> rfl

/-- Claim C9: when `localStorage.isLoggedIn` is not the string "true", the
route guard renders the protected children exactly for a pathname whose
lowercased form is "/upload" or starts with "/upload/", and redirects every
other path to `/login`. -/
theorem protectedRoute_upload_only (lv p : Option String) (h : lv ≠ some "true") :
    ProtectedRoute lv p =
      (if jsToLowerCase (p.getD "") == "/upload" ||
          jsStartsWith (jsToLowerCase (p.getD "")) "/upload/"
        then RouteRender.children else RouteRender.redirectLogin) := by
  unfold ProtectedRoute
  rw [if_neg h]

/-- Witness for C9: an anonymous request to "/Upload/data" renders the
children; an anonymous request to "/dashboard" redirects to `/login`. -/
theorem protectedRoute_upload_only_instance :
    ProtectedRoute none (some "/Upload/data") = RouteRender.children ∧
    ProtectedRoute none (some "/dashboard") = RouteRender.redirectLogin := by
  constructor
  · rw [protectedRoute_upload_only none (some "/Upload/data") (by decide)]
    decide
  · rw [protectedRoute_upload_only none (some "/dashboard") (by decide)]
    decide

/-- Counterexample to claim C4 as stated: this monitoring row has
`vehicle_hire_status = "Not Started"` (and, having never been offered a
session, no open session), yet the Vehicle Hire page's filter excludes it —
no session start is offered — because its data-extraction status is not
"Completed". -/
theorem vehicleHire_offer_needs_more_than_hire_status :
    ((⟨"In Progress", "Completed", "Not Started"⟩ : MonitoringDoc).vehicle_hire_status
      = "Not Started") ∧
    vehicleHireFilter ⟨"In Progress", "Completed", "Not Started"⟩ = false ∧
    fetchVehicleHireDocs [⟨"In Progress", "Completed", "Not Started"⟩] = [] := by
  refine ⟨rfl, ?_, ?_⟩ <;> decide

/-- Claim C4 (amended): the modelled `StartSession` proceeds for every
document whose `hire_status` is NotStarted with no open session, but the
Vehicle Hire page offers a session start exactly for the monitoring rows
whose data-extraction status and ERP-entry status are "Completed" and whose
vehicle-hire status is "Not Started"; a document whose `hire_status` is
NotStarted is not offered a session start unless the other two sub-statuses
are Completed. -/
theorem vehicleHire_offer_characterization (docs : List MonitoringDoc) (doc : MonitoringDoc) :
    (doc ∈ fetchVehicleHireDocs docs ↔
      (doc ∈ docs ∧ doc.data_extraction_status = "Completed" ∧
        doc.erp_entry_status = "Completed" ∧ doc.vehicle_hire_status = "Not Started")) ∧
    (∀ (st : OrchestratorState) (d : Nat) (a : String) (n : Nat),
      openSessionFor st d = none → st.hireStatus d = SubStatus.notStarted →
      StartSession st d a n
        = (⟨st.sessions ++ [newSession st.nextId d a n], st.ledger, st.hireStatus,
            st.nextId + 1⟩, StartResult.started st.nextId)) := by
  constructor
  · simp [fetchVehicleHireDocs, List.mem_filter, vehicleHireFilter, Bool.and_eq_true,
      beq_iff_eq, and_assoc]
  · intro st d a n h1 h2
    unfold StartSession
    rw [h1, if_pos h2]

/-- Counterexample to claim C6 as stated: the sessions table's `status`
column is a bare nullable `VARCHAR(20)` with no CHECK constraint, so it
accepts the string "garbage_state", which is in neither the specification's
six-state enumeration nor the four states the migration's comment
documents. -/
theorem sessions_status_not_constrained :
    ((⟨"status", SqlType.varchar 20, false, true⟩ : SqlColumn)
        ∈ telegramPendingSessions.columns) ∧
    SqlColumn.accepts ⟨"status", SqlType.varchar 20, false, true⟩
      (some (SqlValue.str "garbage_state")) = true ∧
    ("garbage_state" ∉ specSessionStateNames) ∧
    ("garbage_state" ∉ telegramStatusComment) ∧
    telegramPendingSessions.checks = [] := by
  refine ⟨?_, ?_, ?_, ?_, rfl⟩ <;> decide

/-- Claim C6 (amended): the sessions table stores `status` as a nullable
`VARCHAR(20)` with default 'pending' and declares no CHECK constraint: every
string of at most 20 characters (and NULL) is accepted, so the session-state
enumeration is only documented by the migration's comment — which lists
pending, waiting_advance, waiting_qty and completed, with no expired or
cancelled state — and is not enforced by the schema. -/
theorem sessions_status_column_shape :
    (telegramPendingSessions.columns.find? (fun c => c.name == "status")
      = some ⟨"status", SqlType.varchar 20, false, true⟩) ∧
    (∀ s : String,
      SqlColumn.accepts ⟨"status", SqlType.varchar 20, false, true⟩
        (some (SqlValue.str s)) = decide (s.length ≤ 20)) ∧
    SqlColumn.accepts ⟨"status", SqlType.varchar 20, false, true⟩ none = true ∧
    telegramPendingSessions.checks = [] ∧
    telegramStatusComment = ["pending", "waiting_advance", "waiting_qty", "completed"] ∧
    ("expired" ∉ telegramStatusComment ∧ "cancelled" ∉ telegramStatusComment) := by
  refine ⟨by decide, fun s => rfl, rfl, rfl, rfl, by decide⟩

/-- Counterexample to claim C7 as stated: the sessions table carries no
version/sequence column at all — no column of
`telegram_pending_sessions` is named "version". -/
theorem sessions_no_version_column :
    (telegramPendingSessions.columns.map (fun c => c.name)).contains "version" = false := by
  decide

/-- Claim C7 (amended): the sessions table's columns are exactly id, doc_id,
phone_no, chat_id, manifest_no, advance_amount, qty, status, created_at and
updated_at; there is no version or sequence column, so the optimistic-locking
counter the specification calls for is absent from the persisted schema. -/
theorem sessions_columns_exact :
    telegramPendingSessions.columns.map (fun c => c.name)
      = ["id", "doc_id", "phone_no", "chat_id", "manifest_no", "advance_amount",
        "qty", "status", "created_at", "updated_at"] ∧
    ("version" ∉ telegramPendingSessions.columns.map (fun c => c.name)) := by
  exact ⟨rfl, by decide⟩

/-- Counterexample to claim C8 as stated: the ledger table's
`advance_amount DECIMAL(10, 2) NOT NULL` and `qty DECIMAL(10, 3) NOT NULL`
columns carry no non-negativity constraint (the migration declares no CHECK
at all), so the schema accepts the negative amounts -1.00 and -0.001. -/
theorem vehicleHire_accepts_negative_amounts :
    ((⟨"advance_amount", SqlType.decimal 10 2, true, false⟩ : SqlColumn)
        ∈ vehicleHire.columns) ∧
    ((⟨"qty", SqlType.decimal 10 3, true, false⟩ : SqlColumn) ∈ vehicleHire.columns) ∧
    SqlColumn.accepts ⟨"advance_amount", SqlType.decimal 10 2, true, false⟩
      (some (SqlValue.dec (-100))) = true ∧
    SqlColumn.accepts ⟨"qty", SqlType.decimal 10 3, true, false⟩
      (some (SqlValue.dec (-1))) = true ∧
    ((-100 : Int) < 0 ∧ (-1 : Int) < 0) ∧
    vehicleHire.checks = [] := by
  refine ⟨?_, ?_, ?_, ?_, ?_, rfl⟩ <;> decide

/-- Claim C8 (amended): `advance_amount` and `qty` are NOT NULL fixed-point
columns (DECIMAL(10, 2) and DECIMAL(10, 3)): the schema rejects NULL and
bounds the precision, but imposes no non-negativity — every scaled integer
within ten digits is accepted regardless of sign, and the table declares no
CHECK constraint. -/
theorem vehicleHire_amount_qty_columns :
    (vehicleHire.columns.find? (fun c => c.name == "advance_amount")
      = some ⟨"advance_amount", SqlType.decimal 10 2, true, false⟩) ∧
    (vehicleHire.columns.find? (fun c => c.name == "qty")
      = some ⟨"qty", SqlType.decimal 10 3, true, false⟩) ∧
    (∀ m : Int,
      SqlColumn.accepts ⟨"advance_amount", SqlType.decimal 10 2, true, false⟩
        (some (SqlValue.dec m)) = decide (m.natAbs < 10 ^ 10)) ∧
    SqlColumn.accepts ⟨"advance_amount", SqlType.decimal 10 2, true, false⟩ none = false ∧
    (∀ m : Int,
      SqlColumn.accepts ⟨"qty", SqlType.decimal 10 3, true, false⟩
        (some (SqlValue.dec m)) = decide (m.natAbs < 10 ^ 10)) ∧
    SqlColumn.accepts ⟨"qty", SqlType.decimal 10 3, true, false⟩ none = false ∧
    vehicleHire.checks = [] := by
  refine ⟨by decide, by decide, fun m => rfl, rfl, fun m => rfl, rfl, rfl⟩

/-! ### Helper lemmas about the session store -/

/-- Replacing the sessions with some other id leaves a lookup by `sid`
unchanged. -/
theorem sessions_find?_update_ne (l : List Session) (u : Session) (sid : Nat)
    (h : (u.sessionId == sid) = false) :
    (l.map (fun t => if t.sessionId == u.sessionId then u else t)).find?
        (fun t => t.sessionId == sid)
      = l.find? (fun t => t.sessionId == sid) := by
  induction l with
  | nil => rfl
  | cons a l ih =>
    simp only [List.map_cons]
    by_cases ha : (a.sessionId == u.sessionId) = true
    · have ha2 : a.sessionId = u.sessionId := by simpa using ha
      have ha3 : (a.sessionId == sid) = false := by rw [ha2]; exact h
      rw [if_pos ha]
      rw [@List.find?_cons_of_neg Session (fun t => t.sessionId == sid) u
          (l.map (fun t => if t.sessionId == u.sessionId then u else t)) (by simp [h])]
      rw [@List.find?_cons_of_neg Session (fun t => t.sessionId == sid) a l (by simp [ha3])]
      exact ih
    · rw [if_neg ha]
      by_cases hp : (a.sessionId == sid) = true
      · rw [@List.find?_cons_of_pos Session (fun t => t.sessionId == sid) a
            (l.map (fun t => if t.sessionId == u.sessionId then u else t)) hp]
        rw [@List.find?_cons_of_pos Session (fun t => t.sessionId == sid) a l hp]
      · rw [@List.find?_cons_of_neg Session (fun t => t.sessionId == sid) a
            (l.map (fun t => if t.sessionId == u.sessionId then u else t)) hp]
        rw [@List.find?_cons_of_neg Session (fun t => t.sessionId == sid) a l hp]
        exact ih

/-- Any member of the updated session list that carries the updated id is
the updated record itself. -/
theorem mem_update_same_id (l : List Session) (u t : Session)
    (hmem : t ∈ l.map (fun x => if x.sessionId == u.sessionId then u else x))
    (hid : (t.sessionId == u.sessionId) = true) : t = u := by
  rcases List.mem_map.mp hmem with ⟨x, _, hfx⟩
  by_cases hxu : (x.sessionId == u.sessionId) = true
  · rw [if_pos hxu] at hfx
    exact hfx.symm
  · rw [if_neg hxu] at hfx
    subst hfx
    exact absurd hid hxu

/-- A session resolved by channel identity is a row of the store. -/
theorem resolveSession_mem (st : OrchestratorState) (ch : String) (s : Session)
    (h : resolveSession st ch = some s) : s ∈ st.sessions := by
  unfold resolveSession at h
  cases h1 : st.sessions.find?
      (fun x => x.status.isOpen && x.channelIdentity == some ch) with
  | some t =>
    rw [h1] at h
    cases h
    exact List.mem_of_find?_eq_some h1
  | none =>
    rw [h1] at h
    exact List.mem_of_find?_eq_some h

/-- `applyReply` only rewrites the handled session's row: the resulting
session list is an update of the store by a record that keeps the handled
session's id and processed-id set. -/
theorem applyReply_sessions (st : OrchestratorState) (s : Session) (raw : String) :
    ∃ u : Session, u.sessionId = s.sessionId ∧ u.processedIds = s.processedIds ∧
      (applyReply st s raw).1.sessions
        = st.sessions.map (fun t => if t.sessionId == u.sessionId then u else t) := by
  unfold applyReply
  cases parseReply raw with
  | none => exact ⟨s, rfl, rfl, rfl⟩
  | some v =>
    cases hstt : s.status with
    | awaitingAdvance =>
      exact ⟨{ s with advance := some v, status := SessionStatus.awaitingQuantity },
        rfl, rfl, rfl⟩
    | awaitingQuantity =>
      exact ⟨{ s with qty := some v, status := SessionStatus.completed }, rfl, rfl, rfl⟩
    | pending => exact ⟨s, rfl, rfl, rfl⟩
    | completed => exact ⟨s, rfl, rfl, rfl⟩
    | expired => exact ⟨s, rfl, rfl, rfl⟩
    | cancelled => exact ⟨s, rfl, rfl, rfl⟩

/-- When every row carrying the id `sid` has already processed `pmid`,
handling an event with that provider message id leaves the lookup of `sid`
unchanged. -/
theorem handleInboundReply_preserves_row (st : OrchestratorState) (ch raw pmid : String)
    (n : Nat) (sid : Nat)
    (hall : ∀ t ∈ st.sessions, (t.sessionId == sid) = true →
      t.processedIds.contains pmid = true) :
    sessionById (HandleInboundReply st ch raw pmid n).1 sid = sessionById st sid := by
  unfold HandleInboundReply
  cases hres : resolveSession st ch with
  | none => rfl
  | some t =>
    show sessionById
        (if t.processedIds.contains pmid then (st, ReplyOutcome.duplicateEvent)
          else applyReply st (recordEvent t ch pmid n) raw).1 sid = sessionById st sid
    by_cases hc : t.processedIds.contains pmid = true
    · rw [if_pos hc]
    · rw [if_neg hc]
      have htmem : t ∈ st.sessions := resolveSession_mem st ch t hres
      have hne : (t.sessionId == sid) = false := by
        by_cases hts : (t.sessionId == sid) = true
        · exact absurd (hall t htmem hts) hc
        · exact Bool.of_not_eq_true hts
      rcases applyReply_sessions st (recordEvent t ch pmid n) raw with ⟨u, hid, _, hsess⟩
      show ((applyReply st (recordEvent t ch pmid n) raw).1.sessions.find?
        (fun x => x.sessionId == sid)) = sessionById st sid
      rw [hsess]
      exact sessions_find?_update_ne st.sessions u sid (by
        have hut : u.sessionId = t.sessionId := hid
        rw [hut]
        exact hne)

/-! ### Claim theorems for the orchestrator -/

/-- Claim C3: `StartSession` is idempotent with respect to an existing open
session: after a successful start, a second call for the same document
returns the existing open session's id (rather than erroring) and leaves the
store unchanged — exactly one row was created by the first call and none by
the second; and in any state, a document with an open session gets that
session's id back. -/
theorem startSession_idempotent (st st' : OrchestratorState) (d : Nat) (a : String)
    (n n2 sid : Nat) (h : StartSession st d a n = (st', StartResult.started sid)) :
    StartSession st' d a n2 = (st', StartResult.existing sid) ∧
    st'.sessions.length = st.sessions.length + 1 ∧
    (∀ (a2 : String) (n3 : Nat) (s : Session), openSessionFor st' d = some s →
      StartSession st' d a2 n3 = (st', StartResult.existing s.sessionId)) := by
  have key : openSessionFor st d = none ∧
      st' = (⟨st.sessions ++ [newSession st.nextId d a n], st.ledger, st.hireStatus,
        st.nextId + 1⟩ : OrchestratorState) ∧ sid = st.nextId := by
    unfold StartSession at h
    cases hf : openSessionFor st d with
    | some s =>
      rw [hf] at h
      simp at h
    | none =>
      rw [hf] at h
      by_cases hs : st.hireStatus d = SubStatus.notStarted
      · rw [if_pos hs] at h
        have h1 := congrArg Prod.fst h
        have h2 := congrArg Prod.snd h
        simp only [] at h1 h2
        cases h2
        exact ⟨rfl, h1.symm, rfl⟩
      · rw [if_neg hs] at h
        simp at h
  rcases key with ⟨hf, hst, hsid⟩
  have hopen : openSessionFor st' d = some (newSession st.nextId d a n) := by
    rw [hst]
    show (st.sessions ++ [newSession st.nextId d a n]).find?
        (fun s => s.docId == d && s.status.isOpen) = _
    rw [List.find?_append]
    have hf2 : st.sessions.find? (fun s => s.docId == d && s.status.isOpen) = none := hf
    rw [hf2]
    rw [List.find?_cons_of_pos _ (by simp [newSession, SessionStatus.isOpen])]
    rfl
  refine ⟨?_, ?_, ?_⟩
  · unfold StartSession
    rw [hopen, hsid]
    rfl
  · rw [hst]
    simp
  · intro a2 n3 s hs
    unfold StartSession
    rw [hs]

/-- Witness for C3: starting a session for document 42 in the empty store
and then starting it again returns the first call's session id (1) and adds
no second row. -/
theorem startSession_idempotent_instance :
    StartSession ⟨[newSession 1 42 "9990001111" 0], [], fun _ => SubStatus.notStarted, 2⟩
        42 "9990001111" 5
      = (⟨[newSession 1 42 "9990001111" 0], [], fun _ => SubStatus.notStarted, 2⟩,
        StartResult.existing 1) ∧
    (⟨[newSession 1 42 "9990001111" 0], [], fun _ => SubStatus.notStarted, 2⟩
        : OrchestratorState).sessions.length = 1 :=
  ⟨(startSession_idempotent emptyState
      ⟨[newSession 1 42 "9990001111" 0], [], fun _ => SubStatus.notStarted, 2⟩
      42 "9990001111" 0 5 1 rfl).1,
    rfl⟩

/-- Unfolding `HandleInboundReply` once the channel has been resolved. -/
theorem handleInboundReply_resolved (st : OrchestratorState) (ch raw pmid : String)
    (n : Nat) (t : Session) (ht : resolveSession st ch = some t) :
    HandleInboundReply st ch raw pmid n
      = if t.processedIds.contains pmid then (st, ReplyOutcome.duplicateEvent)
        else applyReply st (recordEvent t ch pmid n) raw := by
  unfold HandleInboundReply
  rw [ht]

/-- Claim C2: processing the same `providerMessageId` twice changes session
state at most once.  After a first delivery addressed (via channel
resolution) to session `s`, a replay of the same provider message id leaves
`s`'s persisted row exactly as the first delivery left it; and whenever the
replay resolves to a session whose durable `processedIds` set already holds
the id, the whole call is a silent no-op returning `DuplicateEventError`.
The dedup set lives in the persisted session row (`processedIds`), so it is
durable and scoped per session. -/
theorem handleInboundReply_at_most_once (st : OrchestratorState) (ch raw pmid : String)
    (n1 n2 : Nat) (s : Session) (hres : resolveSession st ch = some s) :
    sessionById
        (HandleInboundReply (HandleInboundReply st ch raw pmid n1).1 ch raw pmid n2).1
        s.sessionId
      = sessionById (HandleInboundReply st ch raw pmid n1).1 s.sessionId ∧
    (∀ t : Session,
      resolveSession (HandleInboundReply st ch raw pmid n1).1 ch = some t →
      t.processedIds.contains pmid = true →
      HandleInboundReply (HandleInboundReply st ch raw pmid n1).1 ch raw pmid n2
        = ((HandleInboundReply st ch raw pmid n1).1, ReplyOutcome.duplicateEvent)) := by
  constructor
  · by_cases hc : s.processedIds.contains pmid = true
    · have h1 : HandleInboundReply st ch raw pmid n1 = (st, ReplyOutcome.duplicateEvent) := by
        rw [handleInboundReply_resolved st ch raw pmid n1 s hres, if_pos hc]
      have h2 : HandleInboundReply st ch raw pmid n2 = (st, ReplyOutcome.duplicateEvent) := by
        rw [handleInboundReply_resolved st ch raw pmid n2 s hres, if_pos hc]
      rw [h1]
      show sessionById (HandleInboundReply st ch raw pmid n2).1 s.sessionId
        = sessionById st s.sessionId
      rw [h2]
    · have h1 : (HandleInboundReply st ch raw pmid n1).1
          = (applyReply st (recordEvent s ch pmid n1) raw).1 := by
        rw [handleInboundReply_resolved st ch raw pmid n1 s hres, if_neg hc]
      rcases applyReply_sessions st (recordEvent s ch pmid n1) raw with ⟨u, hid, hpids, hsess⟩
      apply handleInboundReply_preserves_row
      intro t ht hts
      rw [h1] at ht
      have ht2 : t ∈ st.sessions.map
          (fun x => if x.sessionId == u.sessionId then u else x) := by
        rw [← hsess]
        exact ht
      have htu : t = u := mem_update_same_id st.sessions u t ht2 (by rw [hid]; exact hts)
      subst htu
      rw [hpids]
      show ((s.processedIds ++ [pmid]).contains pmid) = true
      simp
  · intro t ht htc
    rw [handleInboundReply_resolved _ ch raw pmid n2 t ht, if_pos htc]

/-- Witness for C2: in the sample state, delivering message "2500" with
provider id "m1" and then replaying the same provider id leaves session 1's
row unchanged by the replay. -/
theorem handleInboundReply_at_most_once_instance :
    sessionById (HandleInboundReply (HandleInboundReply sampleState "chat-77" "2500" "m1" 5).1
        "chat-77" "2500" "m1" 6).1 1
      = sessionById (HandleInboundReply sampleState "chat-77" "2500" "m1" 5).1 1 :=
  (handleInboundReply_at_most_once sampleState "chat-77" "2500" "m1" 5 6 sampleSession rfl).1

/-- Claim C5: the reminder sweep expires exactly the open sessions idle
beyond the threshold, leaves every document's `hire_status` untouched (in
particular a NotStarted document stays NotStarted), and a subsequent
`StartSession` for a document whose open sessions were all idle succeeds,
creating a fresh session row. -/
theorem expireIdleSessions_frees_document (st : OrchestratorState) (threshold now : Nat)
    (d : Nat) (a : String) (n2 : Nat)
    (hidle : ∀ s ∈ st.sessions, s.docId = d → s.status.isOpen = true →
      threshold < now - s.lastActivityAt)
    (hhire : st.hireStatus d = SubStatus.notStarted) :
    (∀ s ∈ st.sessions, s.status.isOpen = true → threshold < now - s.lastActivityAt →
      (expireSession threshold now s).status = SessionStatus.expired ∧
      expireSession threshold now s ∈ (ExpireIdleSessions st threshold now).sessions) ∧
    (ExpireIdleSessions st threshold now).hireStatus = st.hireStatus ∧
    (ExpireIdleSessions st threshold now).hireStatus d = SubStatus.notStarted ∧
    StartSession (ExpireIdleSessions st threshold now) d a n2
      = (⟨(ExpireIdleSessions st threshold now).sessions ++ [newSession st.nextId d a n2],
          st.ledger, st.hireStatus, st.nextId + 1⟩,
        StartResult.started st.nextId) := by
  refine ⟨?_, rfl, hhire, ?_⟩
  · intro s hs hop hid
    have hcond : (s.status.isOpen && decide (threshold < now - s.lastActivityAt)) = true := by
      simp [hop, hid]
    constructor
    · unfold expireSession
      rw [if_pos hcond]
    · exact List.mem_map_of_mem _ hs
  · have hnone : openSessionFor (ExpireIdleSessions st threshold now) d = none := by
      show (st.sessions.map (expireSession threshold now)).find?
        (fun s => s.docId == d && s.status.isOpen) = none
      rw [List.find?_eq_none]
      intro x hx
      rcases List.mem_map.mp hx with ⟨s0, hs0, hfx⟩
      subst hfx
      by_cases hd0 : s0.docId = d
      · by_cases hop : s0.status.isOpen = true
        · have hid := hidle s0 hs0 hd0 hop
          have hcond : (s0.status.isOpen && decide (threshold < now - s0.lastActivityAt))
              = true := by
            simp [hop, hid]
          unfold expireSession
          rw [if_pos hcond]
          simp [SessionStatus.isOpen]
        · have hopf : s0.status.isOpen = false := Bool.of_not_eq_true hop
          have hcond : (s0.status.isOpen && decide (threshold < now - s0.lastActivityAt))
              = false := by
            simp [hopf]
          unfold expireSession
          rw [if_neg (by rw [hcond]; exact Bool.false_ne_true)]
          simp [hopf]
      · have hdoc : (expireSession threshold now s0).docId = s0.docId := by
          unfold expireSession
          split <;> rfl
        simp [hdoc, hd0]
    unfold StartSession
    rw [hnone]
    rw [if_pos (show (ExpireIdleSessions st threshold now).hireStatus d
      = SubStatus.notStarted from hhire)]
    rfl

/-- Witness for C5: expiring the sample state's idle session (threshold 10,
idle for 100) lets a fresh `StartSession` for document 42 succeed with the
new session id 2. -/
theorem expireIdleSessions_frees_document_instance :
    StartSession (ExpireIdleSessions sampleState 10 100) 42 "9990001111" 101
      = (⟨(ExpireIdleSessions sampleState 10 100).sessions
            ++ [newSession 2 42 "9990001111" 101],
          sampleState.ledger, sampleState.hireStatus, 3⟩,
        StartResult.started 2) :=
  (expireIdleSessions_frees_document sampleState 10 100 42 "9990001111" 101
    (by decide) rfl).2.2.2

end BoosterEntry
